import Mathlib

/-!
Shallow embedding of the redash-mcp server (src/redashClient.ts and
src/index.ts) and proofs about its documented behaviour.

Conventions used throughout:
* JSON values are modelled by `JsonValue`; a JavaScript value that may be
  `undefined` (an absent optional field) is modelled by `Option`, with
  `none` standing for `undefined`/absent.
* A transmitted JSON object body is modelled as a finite map
  `String → Option JsonValue`: `none` means the key is not part of the
  serialized body (JSON serialization drops keys whose value is
  `undefined`), `some v` means the key is transmitted with value `v`.
* `throw new Error(msg)` / returned values are modelled with explicit
  result types carrying the error message string.
-/

/-- JSON-like runtime values exchanged with the Redash API. -/
inductive JsonValue where
  | null
  | bool (b : Bool)
  | num (n : Int)
  | str (s : String)
  | arr (elems : List JsonValue)
  | obj (fields : List (String × JsonValue))

/-- JavaScript truthiness of a (defined) `JsonValue`: `null`, `false`, `0`
and the empty string are falsy; arrays and objects are always truthy. -/
def truthy : JsonValue → Bool
  | .null => false
  | .bool b => b
  | .num n => n != 0
  | .str s => s != ""
  | .arr _ => true
  | .obj _ => true

/-- The JavaScript expression `v || d` where `v` is a possibly-undefined
value (`none` = `undefined`). -/
def jsOr (v : Option JsonValue) (d : JsonValue) : JsonValue :=
  match v with
  | some x => if truthy x then x else d
  | none => d

/-- The JavaScript expression `s || d` for a possibly-undefined string. -/
def strOr (v : Option String) (d : String) : String :=
  match v with
  | some s => if s = "" then d else s
  | none => d

/-- The `CreateQueryRequest` interface of src/redashClient.ts (lines 24-32):
required `name`, `data_source_id`, `query`; optional
`description`/`options`/`schedule`/`tags` (`none` = field omitted). -/
structure CreateQueryRequest where
  name : String
  data_source_id : Int
  query : String
  description : Option String
  options : Option JsonValue
  schedule : Option JsonValue
  tags : Option (List String)

/-- The `requestData` object built by `RedashClient.createQuery`
(src/redashClient.ts lines 175-183) and posted to `/api/queries`, viewed as
the serialized JSON body: every one of the seven keys is always present,
with the optional fields defaulted through JavaScript `||`. -/
def createQueryRequestData (q : CreateQueryRequest) : String → Option JsonValue := fun k =>
  if k = "name" then some (.str q.name)
  else if k = "data_source_id" then some (.num q.data_source_id)
  else if k = "query" then some (.str q.query)
  else if k = "description" then some (.str (strOr q.description ""))
  else if k = "options" then some (jsOr q.options (.obj []))
  else if k = "schedule" then some (jsOr q.schedule .null)
  else if k = "tags" then some (.arr ((q.tags.getD []).map .str))
  else none

/-- The `create_query` tool handler of src/index.ts (lines 86-94): it
converts the validated tool arguments (same optional shape as
`CreateQueryRequest`) into the request passed to the client, applying the
same `||` defaults, so every field of the produced record is defined. -/
def createQueryToolData (p : CreateQueryRequest) : CreateQueryRequest :=
  { name := p.name
    data_source_id := p.data_source_id
    query := p.query
    description := some (strOr p.description "")
    options := some (jsOr p.options (.obj []))
    schedule := some (jsOr p.schedule .null)
    tags := some (p.tags.getD []) }

/-- The `UpdateQueryRequest` interface of src/redashClient.ts (lines 34-44):
every field optional (`none` = field omitted / `undefined`). -/
structure UpdateQueryRequest where
  name : Option String
  data_source_id : Option Int
  query : Option String
  description : Option String
  options : Option JsonValue
  schedule : Option JsonValue
  tags : Option (List String)
  is_archived : Option Bool
  is_draft : Option Bool

/-- The `requestData` object built by `RedashClient.updateQuery`
(src/redashClient.ts lines 223-233): each key is assigned exactly when the
corresponding input field `!== undefined`, so the serialized body contains
a key iff the field is defined, carrying its (possibly falsy) value. -/
def updateQueryRequestData (q : UpdateQueryRequest) : String → Option JsonValue := fun k =>
  if k = "name" then q.name.map .str
  else if k = "data_source_id" then q.data_source_id.map .num
  else if k = "query" then q.query.map .str
  else if k = "description" then q.description.map .str
  else if k = "options" then q.options
  else if k = "schedule" then q.schedule
  else if k = "tags" then q.tags.map (fun ts => .arr (ts.map .str))
  else if k = "is_archived" then q.is_archived.map .bool
  else if k = "is_draft" then q.is_draft.map .bool
  else none

/-- The nine keys `updateQuery` may transmit. -/
def updateQueryKeys : List String :=
  ["name", "data_source_id", "query", "description", "options", "schedule",
   "tags", "is_archived", "is_draft"]

/-- The `UpdateVisualizationRequest` interface of src/redashClient.ts
(lines 64-69): all fields optional. -/
structure UpdateVisualizationRequest where
  type : Option String
  name : Option String
  description : Option String
  options : Option JsonValue

/-- The JSON body posted by `RedashClient.updateVisualization`
(src/redashClient.ts line 469): the `data` record is serialized directly,
and JSON serialization drops keys whose value is `undefined`, so the body
contains a key iff the field is defined. The `update_visualization` tool
handler (src/index.ts lines 491-494) builds `data` by rest-spreading the
validated arguments, which likewise contains only the keys the caller
supplied. -/
def updateVisualizationPayload (d : UpdateVisualizationRequest) : String → Option JsonValue := fun k =>
  if k = "type" then d.type.map .str
  else if k = "name" then d.name.map .str
  else if k = "description" then d.description.map .str
  else if k = "options" then d.options
  else none

/-- The four keys `updateVisualization` may transmit. -/
def updateVisualizationKeys : List String := ["type", "name", "description", "options"]

/-- A tool-call response content block: `isError` flag plus the text
content, as returned by the CallTool handler in src/index.ts. -/
structure ToolResponse where
  isError : Bool
  text : String

/-- Outcome of routing one tool-call request (src/index.ts lines 823-941):
either the request is routed to the named tool handler (which validates
arguments and may invoke the Redash client), or the `default` branch of the
switch (lines 914-924) returns the error-flagged "Unknown tool" response
immediately — that branch contains no Redash client call. -/
inductive DispatchOutcome where
  | toHandler (tool : String)
  | unknownTool (response : ToolResponse)

/-- The declared tool catalog: the `name` fields registered by the
ListTools handler of src/index.ts (lines 634-820), in declaration order. -/
def declaredToolNames : List String :=
  ["list_queries", "get_query", "create_query", "update_query",
   "archive_query", "list_data_sources", "execute_query", "list_dashboards",
   "get_dashboard", "get_visualization", "execute_adhoc_query",
   "create_visualization", "update_visualization", "delete_visualization"]

/-- Routing performed by the CallTool handler of src/index.ts: the two
early-validated tools (`create_query`, `update_query`, lines 831-863) are
tested first, then the switch on the remaining tool names (lines 866-913);
an unmatched name falls to the default branch (lines 914-924). -/
def dispatchToolCall (name : String) : DispatchOutcome :=
  if name = "create_query" then .toHandler "create_query"
  else if name = "update_query" then .toHandler "update_query"
  else if name = "list_queries" then .toHandler "list_queries"
  else if name = "get_query" then .toHandler "get_query"
  else if name = "archive_query" then .toHandler "archive_query"
  else if name = "list_data_sources" then .toHandler "list_data_sources"
  else if name = "execute_query" then .toHandler "execute_query"
  else if name = "list_dashboards" then .toHandler "list_dashboards"
  else if name = "get_dashboard" then .toHandler "get_dashboard"
  else if name = "get_visualization" then .toHandler "get_visualization"
  else if name = "execute_adhoc_query" then .toHandler "execute_adhoc_query"
  else if name = "create_visualization" then .toHandler "create_visualization"
  else if name = "update_visualization" then .toHandler "update_visualization"
  else if name = "delete_visualization" then .toHandler "delete_visualization"
  else .unknownTool { isError := true, text := "Unknown tool: " ++ name }

/-- Whether a dispatch outcome can reach the Redash client: tool handlers
invoke client methods; the unknown-tool branch returns its literal response
without any upstream call. -/
def mayCallUpstream : DispatchOutcome → Bool
  | .toHandler _ => true
  | .unknownTool _ => false

/-- A resource entry returned by the ListResources handler. -/
structure ResourceEntry where
  uri : String
  name : String
  description : String

/-- The fields of a Redash query used by the ListResources handler. -/
structure RQuery where
  id : Nat
  name : String
  description : String

/-- The fields of a Redash dashboard used by the ListResources handler. -/
structure RDashboard where
  id : Nat
  name : String

/-- Mapping of one query to a resource (src/index.ts lines 557-561),
including the `query.description || ...` default. -/
def queryResource (q : RQuery) : ResourceEntry :=
  { uri := "redash://query/" ++ toString q.id
    name := q.name
    description := strOr (some q.description) ("Query ID: " ++ toString q.id) }

/-- Mapping of one dashboard to a resource (src/index.ts lines 565-569). -/
def dashboardResource (d : RDashboard) : ResourceEntry :=
  { uri := "redash://dashboard/" ++ toString d.id
    name := d.name
    description := "Dashboard ID: " ++ toString d.id }

/-- The ListResources handler of src/index.ts (lines 553-580): the two
upstream listing calls run inside one `try`; if either fails the `catch`
returns `{ resources: [] }`. The handler therefore always returns a list
and never propagates the upstream error. `Except.error e` models an
upstream call that throws with message `e`. -/
def listResourcesHandler (qres : Except String (List RQuery))
    (dres : Except String (List RDashboard)) : List ResourceEntry :=
  match qres, dres with
  | .ok qs, .ok ds => qs.map queryResource ++ ds.map dashboardResource
  | _, _ => []

/-- `Except.isOk` as a plain boolean. -/
def exceptIsOk : Except String α → Bool
  | .ok _ => true
  | .error _ => false

/-- One job-status response body (`response.data.job`) observed by a poll
request (src/redashClient.ts lines 330-343): status code, the optional
`query_result_id` (with `none` for `null`/absent), the inline `result`
payload (`.null` when absent), and the optional `error` text. -/
structure JobPoll where
  status : Nat
  query_result_id : Option Nat
  result : JsonValue
  error : Option String

/-- The upstream behaviour a poll loop runs against: `responses k` is the
outcome of the k-th `GET /api/jobs/:jobId` request (`Except.error e` = the
request throws with detailed message `e`), and `fetchResult rid` is the
body returned by `GET /api/query_results/:rid`. Each request is modelled as
taking no time; the only time that passes is the fixed inter-poll wait. -/
structure PollEnv where
  responses : Nat → Except String JobPoll
  fetchResult : Nat → JsonValue

/-- Outcome of `pollQueryResults`: a returned query result, or a thrown
error carrying its message. -/
inductive PollResult where
  | ok (r : JsonValue)
  | err (msg : String)

/-- A run of the polling loop: its outcome (`none` marks fuel exhaustion,
proved unreachable whenever the interval is positive), the number of job
status requests performed, and the number of interval waits performed
(elapsed time on termination is `waits * interval`). -/
structure PollTrace where
  outcome : Option PollResult
  checks : Nat
  waits : Nat

/-- Completion handling of src/redashClient.ts lines 332-340: if the job
carries a truthy `query_result_id` the stored result is fetched from
`/api/query_results/:id`; otherwise (absent or the falsy 0) the job's
inline `result` is returned directly. -/
def completedJobValue (env : PollEnv) (job : JobPoll) : JsonValue :=
  match job.query_result_id with
  | some rid => if rid = 0 then job.result else env.fetchResult rid
  | none => job.result

/-- Extends a loop trace with the one status request and one interval wait
of an enclosing "still running" iteration. -/
def afterWait (t : PollTrace) : PollTrace :=
  { outcome := t.outcome, checks := t.checks + 1, waits := t.waits + 1 }

/-- `⌈a / b⌉` on naturals. -/
def ceilDiv (a b : Nat) : Nat := (a + b - 1) / b

/-- One iteration of the `while` loop of `RedashClient.pollQueryResults`
(src/redashClient.ts lines 325-379). `k` counts iterations, so with
zero-time requests `Date.now() - startTime = k * interval` at the k-th
guard test, giving the guard `k * interval < timeout`. Within an iteration:
the status request either throws (its axios error is wrapped by the catch
of lines 354-374 into the "Failed to poll for query results" message, `e`
standing for the composed detail text) or yields a job; status 3 returns
the completion value, status 4 throws "Query execution failed" with the
job's error text or the "Unknown error" placeholder — an error which the
catch re-throws as-is (lines 350-352); any other status sleeps one interval
and continues with `rest`, the trace of the remaining iterations. When the
guard fails the timeout error is thrown. -/
def pollIter (env : PollEnv) (jobId : String) (timeout interval k : Nat)
    (rest : PollTrace) : PollTrace :=
  if k * interval < timeout then
    match env.responses k with
    | .ok job =>
      if job.status = 3 then
        { outcome := some (.ok (completedJobValue env job)), checks := 1, waits := 0 }
      else if job.status = 4 then
        { outcome := some (.err ("Query execution failed: " ++ job.error.getD "Unknown error"))
          checks := 1, waits := 0 }
      else
        afterWait rest
    | .error e =>
      { outcome := some (.err ("Failed to poll for query results (job " ++ jobId ++ "): " ++ e))
        checks := 1, waits := 0 }
  else
    { outcome := some (.err ("Query execution timed out after " ++ toString timeout ++ "ms"))
      checks := 0, waits := 0 }

/-- The loop of `RedashClient.pollQueryResults` from iteration `k` on:
`fuel` iterations of `pollIter`, ending in the fuel-exhaustion marker
(outcome `none`). The marker is unreachable whenever `0 < interval` and
`fuel` is large enough (proved below), so it never influences a run of the
modelled program. -/
def pollAux (env : PollEnv) (jobId : String) (timeout interval : Nat) : Nat → Nat → PollTrace
  | k, 0 => pollIter env jobId timeout interval k { outcome := none, checks := 0, waits := 0 }
  | k, fuel + 1 =>
    pollIter env jobId timeout interval k (pollAux env jobId timeout interval (k + 1) fuel)

/-- `RedashClient.pollQueryResults env jobId timeout interval`, run with
enough fuel for every iteration the guard can admit. The TypeScript
defaults are `timeout = 60000`, `interval = 1000`. -/
def pollQueryResults (env : PollEnv) (jobId : String) (timeout interval : Nat) : PollTrace :=
  pollAux env jobId timeout interval 0 (ceilDiv timeout interval)

/-- The immediate response to a query-execution submission: either an
inline result body or a job handle (`response.data.job`). -/
inductive SubmitResponse where
  | withJob (jobId : String)
  | inline (r : JsonValue)

/-- `RedashClient.executeQuery` (src/redashClient.ts lines 289-322) after a
successful submission: an inline response is returned directly; a job
response enters the polling loop. An error thrown by the loop is a plain
(non-axios) `Error`, so the catch of lines 315-319 re-throws it wrapped as
"Failed to execute query {id}: {message}". -/
def executeQuery (queryId : Nat) (submit : SubmitResponse) (env : PollEnv)
    (timeout interval : Nat) : Option PollResult :=
  match submit with
  | .inline r => some (.ok r)
  | .withJob jid =>
    match (pollQueryResults env jid timeout interval).outcome with
    | some (.ok r) => some (.ok r)
    | some (.err m) => some (.err ("Failed to execute query " ++ toString queryId ++ ": " ++ m))
    | none => none

/-- `RedashClient.executeAdhocQuery` (src/redashClient.ts lines 423-453)
after a successful submission: same shape as `executeQuery`, with the catch
of lines 449-452 wrapping a loop error as
"Failed to execute adhoc query: {message}". -/
def executeAdhocQuery (submit : SubmitResponse) (env : PollEnv)
    (timeout interval : Nat) : Option PollResult :=
  match submit with
  | .inline r => some (.ok r)
  | .withJob jid =>
    match (pollQueryResults env jid timeout interval).outcome with
    | some (.ok r) => some (.ok r)
    | some (.err m) => some (.err ("Failed to execute adhoc query: " ++ m))
    | none => none

/-- A poll response that keeps the loop running: a successful status
request whose status is neither 3 (completed) nor 4 (failed). -/
def isRunning : Except String JobPoll → Bool
  | .ok job => !(job.status == 3) && !(job.status == 4)
  | .error _ => false

/-- A "still running" job response (status 1). -/
def runningJob : JobPoll := { status := 1, query_result_id := none, result := .null, error := none }

/-- A completed job carrying a persisted-result identifier. -/
def storedCompletionJob : JobPoll :=
  { status := 3, query_result_id := some 7, result := .null, error := none }

/-- A completed job carrying only an inline result payload. -/
def inlineCompletionJob : JobPoll :=
  { status := 3, query_result_id := none, result := .str "inline rows", error := none }

/-- A failed job (status 4) with error text "boom". -/
def failedJob : JobPoll := { status := 4, query_result_id := none, result := .null, error := some "boom" }

/-- Upstream behaviour with status sequence 1,1,1,3 where the completion
carries a persisted-result identifier. -/
def envStored : PollEnv :=
  { responses := fun k => if k < 3 then .ok runningJob else .ok storedCompletionJob
    fetchResult := fun rid => .str ("stored result " ++ toString rid) }

/-- Upstream behaviour with status sequence 1,1,1,3 where the completion
carries only an inline result. -/
def envInline : PollEnv :=
  { responses := fun k => if k < 3 then .ok runningJob else .ok inlineCompletionJob
    fetchResult := fun _ => .null }

/-- Upstream behaviour with status sequence 1,4. -/
def envFailed : PollEnv :=
  { responses := fun k => if k = 0 then .ok runningJob else .ok failedJob
    fetchResult := fun _ => .null }

/-- Upstream behaviour that never reaches a terminal status. -/
def envForever : PollEnv :=
  { responses := fun _ => .ok runningJob, fetchResult := fun _ => .null }

/-- A partial update setting only falsy-but-defined values. -/
def sampleUpdateQuery : UpdateQueryRequest :=
  { name := some "", data_source_id := some 0, query := none, description := none,
    options := none, schedule := none, tags := none, is_archived := some false,
    is_draft := none }

/-- A partial visualization update setting only falsy-but-defined values. -/
def sampleUpdateVisualization : UpdateVisualizationRequest :=
  { type := none, name := some "", description := none, options := some .null }

/-- A create-query request with only the required fields. -/
def sampleCreateQuery : CreateQueryRequest :=
  { name := "q", data_source_id := 1, query := "select 1", description := none,
    options := none, schedule := none, tags := none }

lemma lt_ceilDiv_of_mul_lt {T I k : Nat} (hI : 0 < I) (h : k * I < T) : k < ceilDiv T I := by
  have hs : (k + 1) * I = k * I + I := by ring
  have hle : (k + 1) * I ≤ T + I - 1 := by rw [hs]; omega
  have := (Nat.le_div_iff_mul_le hI).mpr hle
  simpa [ceilDiv, Nat.lt_iff_add_one_le] using this

lemma pollAux_guard_false (env : PollEnv) (jid : String) {T I k : Nat} (fuel : Nat)
    (h : ¬ k * I < T) :
    pollAux env jid T I k fuel =
      { outcome := some (.err ("Query execution timed out after " ++ toString T ++ "ms"))
        checks := 0, waits := 0 } := by
  cases fuel <;> rw [pollAux, pollIter] <;> simp [h]

lemma pollAux_completed (env : PollEnv) (jid : String) {T I k : Nat} (fuel : Nat)
    (hg : k * I < T) {job : JobPoll} (hjob : env.responses k = .ok job)
    (h3 : job.status = 3) :
    pollAux env jid T I k fuel =
      { outcome := some (.ok (completedJobValue env job)), checks := 1, waits := 0 } := by
  cases fuel <;> rw [pollAux, pollIter] <;> simp [hg, hjob, h3]

lemma pollAux_failed (env : PollEnv) (jid : String) {T I k : Nat} (fuel : Nat)
    (hg : k * I < T) {job : JobPoll} (hjob : env.responses k = .ok job)
    (h4 : job.status = 4) :
    pollAux env jid T I k fuel =
      { outcome := some (.err ("Query execution failed: " ++ job.error.getD "Unknown error"))
        checks := 1, waits := 0 } := by
  have h3 : ¬ job.status = 3 := by omega
  cases fuel <;> rw [pollAux, pollIter] <;> simp [hg, hjob, h3, h4]

lemma pollAux_pollError (env : PollEnv) (jid : String) {T I k : Nat} (fuel : Nat)
    (hg : k * I < T) {e : String} (hc : env.responses k = .error e) :
    pollAux env jid T I k fuel =
      { outcome := some (.err ("Failed to poll for query results (job " ++ jid ++ "): " ++ e))
        checks := 1, waits := 0 } := by
  cases fuel <;> rw [pollAux, pollIter] <;> simp [hg, hc]

lemma pollAux_step (env : PollEnv) (jid : String) {T I k : Nat} (fuel : Nat)
    (hg : k * I < T) {job : JobPoll} (hjob : env.responses k = .ok job)
    (h3 : ¬ job.status = 3) (h4 : ¬ job.status = 4) :
    pollAux env jid T I k (fuel + 1) = afterWait (pollAux env jid T I (k + 1) fuel) := by
  rw [pollAux, pollIter]
  simp [hg, hjob, h3, h4]

lemma isRunning_elim {r : Except String JobPoll} (h : isRunning r = true) :
    ∃ job, r = .ok job ∧ ¬ job.status = 3 ∧ ¬ job.status = 4 := by
  cases r with
  | error e => simp [isRunning] at h
  | ok job =>
    simp only [isRunning, Bool.and_eq_true, Bool.not_eq_eq_eq_not, Bool.not_true,
      beq_eq_false_iff_ne, ne_eq] at h
    exact ⟨job, rfl, h.1, h.2⟩

lemma pollAux_skip (env : PollEnv) (jid : String) {T I : Nat} :
    ∀ d k fuel, d ≤ fuel →
      (∀ j, j < d → (k + j) * I < T) →
      (∀ j, j < d → isRunning (env.responses (k + j)) = true) →
      pollAux env jid T I k fuel =
        { outcome := (pollAux env jid T I (k + d) (fuel - d)).outcome
          checks := (pollAux env jid T I (k + d) (fuel - d)).checks + d
          waits := (pollAux env jid T I (k + d) (fuel - d)).waits + d } := by
  intro d
  induction d with
  | zero => intro k fuel _ _ _; simp
  | succ d ih =>
    intro k fuel hdf hg hr
    cases fuel with
    | zero => omega
    | succ f =>
      have hg0 : k * I < T := by simpa using hg 0 (by omega)
      have hr0 : isRunning (env.responses k) = true := by simpa using hr 0 (by omega)
      obtain ⟨job, hjob, h3, h4⟩ := isRunning_elim hr0
      rw [pollAux_step env jid f hg0 hjob h3 h4]
      have hg1 : ∀ j, j < d → (k + 1 + j) * I < T := by
        intro j hj
        have e : k + 1 + j = k + (j + 1) := by omega
        rw [e]; exact hg (j + 1) (by omega)
      have hr1 : ∀ j, j < d → isRunning (env.responses (k + 1 + j)) = true := by
        intro j hj
        have e : k + 1 + j = k + (j + 1) := by omega
        rw [e]; exact hr (j + 1) (by omega)
      rw [ih (k + 1) f (by omega) hg1 hr1]
      have e1 : k + (d + 1) = k + 1 + d := by omega
      have e2 : f + 1 - (d + 1) = f - d := by omega
      rw [e1, e2]
      simp [afterWait]
      omega

lemma pollAux_total (env : PollEnv) (jid : String) {T I : Nat} (hI : 0 < I) :
    ∀ fuel k, ceilDiv T I ≤ k + fuel →
      (pollAux env jid T I k fuel).outcome ≠ none ∧
      (pollAux env jid T I k fuel).checks ≤ ceilDiv T I - k := by
  intro fuel
  induction fuel with
  | zero =>
    intro k hk
    have hg : ¬ k * I < T := fun h => by have := lt_ceilDiv_of_mul_lt hI h; omega
    rw [pollAux_guard_false env jid 0 hg]
    simp
  | succ f ih =>
    intro k hk
    by_cases hg : k * I < T
    · have hkc : k < ceilDiv T I := lt_ceilDiv_of_mul_lt hI hg
      cases hc : env.responses k with
      | error e =>
        rw [pollAux_pollError env jid (f + 1) hg hc]
        refine ⟨by simp, by simp; omega⟩
      | ok job =>
        by_cases h3 : job.status = 3
        · rw [pollAux_completed env jid (f + 1) hg hc h3]
          refine ⟨by simp, by simp; omega⟩
        · by_cases h4 : job.status = 4
          · rw [pollAux_failed env jid (f + 1) hg hc h4]
            refine ⟨by simp, by simp; omega⟩
          · rw [pollAux_step env jid f hg hc h3 h4]
            have := ih (k + 1) (by omega)
            refine ⟨by simp [afterWait]; exact this.1, ?_⟩
            have h2 := this.2
            simp [afterWait]
            omega
    · rw [pollAux_guard_false env jid (f + 1) hg]
      refine ⟨by simp, by simp⟩

lemma pollAux_all_running (env : PollEnv) (jid : String) {T I : Nat} (hI : 0 < I)
    (hall : ∀ j, j * I < T → isRunning (env.responses j) = true) :
    ∀ fuel k, ceilDiv T I ≤ k + fuel →
      (pollAux env jid T I k fuel).outcome =
        some (.err ("Query execution timed out after " ++ toString T ++ "ms")) := by
  intro fuel
  induction fuel with
  | zero =>
    intro k hk
    have hg : ¬ k * I < T := fun h => by have := lt_ceilDiv_of_mul_lt hI h; omega
    rw [pollAux_guard_false env jid 0 hg]
  | succ f ih =>
    intro k hk
    by_cases hg : k * I < T
    · obtain ⟨job, hjob, h3, h4⟩ := isRunning_elim (hall k hg)
      rw [pollAux_step env jid f hg hjob h3 h4]
      simpa [afterWait] using ih (k + 1) (by omega)
    · rw [pollAux_guard_false env jid (f + 1) hg]

lemma pollQueryResults_terminal (env : PollEnv) (jid : String) {T I k : Nat} (hI : 0 < I)
    (hk : k * I < T)
    (hrun : ∀ j, j < k → isRunning (env.responses j) = true)
    {job : JobPoll} (hjob : env.responses k = .ok job) :
    (job.status = 3 →
      pollQueryResults env jid T I =
        { outcome := some (.ok (completedJobValue env job)), checks := k + 1, waits := k }) ∧
    (job.status = 4 →
      pollQueryResults env jid T I =
        { outcome := some (.err ("Query execution failed: " ++ job.error.getD "Unknown error"))
          checks := k + 1, waits := k }) := by
  have hkc : k < ceilDiv T I := lt_ceilDiv_of_mul_lt hI hk
  have hg : ∀ j, j < k → (0 + j) * I < T := by
    intro j hj
    have hle : j * I ≤ k * I := Nat.mul_le_mul_right I (by omega)
    simpa using lt_of_le_of_lt hle hk
  have hr : ∀ j, j < k → isRunning (env.responses (0 + j)) = true := by
    intro j hj; simpa using hrun j hj
  have hskip := pollAux_skip env jid k 0 (ceilDiv T I) (by omega) hg hr
  simp only [Nat.zero_add] at hskip
  constructor
  · intro h3
    rw [pollQueryResults, hskip, pollAux_completed env jid (ceilDiv T I - k) hk hjob h3]
    simp [Nat.add_comm]
  · intro h4
    rw [pollQueryResults, hskip, pollAux_failed env jid (ceilDiv T I - k) hk hjob h4]
    simp [Nat.add_comm]

lemma notMem_ne {a b : String} {L : List String} (h : a ∉ L) (hb : b ∈ L) : a ≠ b :=
  fun e => h (e.symm ▸ hb)

/-- C1: for every job poll whose status response is 3 (completed), the
result-retrieval protocol returns the stored QueryResult fetched via the
job's persisted `query_result_id` when the job carries one, and otherwise
returns the job's inline result payload directly; both completion shapes
are handled. -/
theorem poll_completion_paths (env : PollEnv) (jid : String) (T I k : Nat) (hI : 0 < I)
    (hk : k * I < T)
    (hrun : ∀ j, j < k → isRunning (env.responses j) = true)
    (job : JobPoll) (hjob : env.responses k = .ok job) (h3 : job.status = 3) :
    (∀ rid, job.query_result_id = some rid → 0 < rid →
      (pollQueryResults env jid T I).outcome = some (.ok (env.fetchResult rid))) ∧
    (job.query_result_id = none →
      (pollQueryResults env jid T I).outcome = some (.ok job.result)) := by
  have ht := (pollQueryResults_terminal env jid hI hk hrun hjob).1 h3
  constructor
  · intro rid hrid hpos
    rw [ht]
    have hz : ¬ rid = 0 := by omega
    simp [completedJobValue, hrid, hz]
  · intro hnone
    rw [ht]
    simp [completedJobValue, hnone]

/-- Witness for `poll_completion_paths`: the status sequence 1,1,1,3 where
the completed job carries `query_result_id = 7` returns the stored result
fetched for id 7. -/
theorem poll_completion_paths_witness :
    (0 < 1 ∧ 3 * 1 < 5 ∧ (∀ j, j < 3 → isRunning (envStored.responses j) = true)) ∧
    (pollQueryResults envStored "j1" 5 1).outcome = some (.ok (envStored.fetchResult 7)) :=
  ⟨⟨by decide, by decide, by decide⟩,
    (poll_completion_paths envStored "j1" 5 1 3 (by decide) (by decide) (by decide)
      storedCompletionJob rfl rfl).1 7 rfl (by decide)⟩

/-- C2 counterexample: with status sequence 1,4 (error text "boom") the
polling loop fails with "Query execution failed: boom", but the caller of
`executeQuery` / `executeAdhocQuery` receives a different, re-wrapped error
message — the loop's error does not propagate unchanged through the
enclosing catch handlers. -/
theorem execute_rewrap_counterexample :
    (pollQueryResults envFailed "8" 5 1).outcome =
      some (.err "Query execution failed: boom") ∧
    executeQuery 42 (.withJob "8") envFailed 5 1 =
      some (.err "Failed to execute query 42: Query execution failed: boom") ∧
    executeAdhocQuery (.withJob "8") envFailed 5 1 =
      some (.err "Failed to execute adhoc query: Query execution failed: boom") ∧
    ("Failed to execute query 42: Query execution failed: boom" : String) ≠
      "Query execution failed: boom" :=
  ⟨rfl, rfl, rfl, by decide⟩

/-- C2 (amended): on a status-4 poll the loop fails immediately with an
error carrying the job's reported error text (or the "Unknown error"
placeholder), after exactly the preceding interval waits; the loop's own
catch re-throws that error unchanged, but the enclosing `executeQuery` /
`executeAdhocQuery` catch handlers re-wrap it with a
"Failed to execute query {id}: " / "Failed to execute adhoc query: "
prefix, preserving the original message as a suffix. -/
theorem poll_failure_wrapped (env : PollEnv) (jid : String) (qid T I k : Nat) (hI : 0 < I)
    (hk : k * I < T)
    (hrun : ∀ j, j < k → isRunning (env.responses j) = true)
    (job : JobPoll) (hjob : env.responses k = .ok job) (h4 : job.status = 4) :
    (pollQueryResults env jid T I).outcome =
      some (.err ("Query execution failed: " ++ job.error.getD "Unknown error")) ∧
    (pollQueryResults env jid T I).waits = k ∧
    executeQuery qid (.withJob jid) env T I =
      some (.err ("Failed to execute query " ++ toString qid ++ ": " ++
        ("Query execution failed: " ++ job.error.getD "Unknown error"))) ∧
    executeAdhocQuery (.withJob jid) env T I =
      some (.err ("Failed to execute adhoc query: " ++
        ("Query execution failed: " ++ job.error.getD "Unknown error"))) := by
  have ht := (pollQueryResults_terminal env jid hI hk hrun hjob).2 h4
  refine ⟨by rw [ht], by rw [ht], ?_, ?_⟩
  · simp [executeQuery, ht]
  · simp [executeAdhocQuery, ht]

/-- Witness for `poll_failure_wrapped`: status sequence 1,4 with error text
"boom" fails after exactly one interval wait, and the execute wrappers each
re-wrap the message. -/
theorem poll_failure_wrapped_witness :
    (0 < 1 ∧ 1 * 1 < 5 ∧ (∀ j, j < 1 → isRunning (envFailed.responses j) = true)) ∧
    ((pollQueryResults envFailed "9" 5 1).outcome =
        some (.err ("Query execution failed: " ++ failedJob.error.getD "Unknown error")) ∧
      (pollQueryResults envFailed "9" 5 1).waits = 1 ∧
      executeQuery 42 (.withJob "9") envFailed 5 1 =
        some (.err ("Failed to execute query " ++ toString 42 ++ ": " ++
          ("Query execution failed: " ++ failedJob.error.getD "Unknown error"))) ∧
      executeAdhocQuery (.withJob "9") envFailed 5 1 =
        some (.err ("Failed to execute adhoc query: " ++
          ("Query execution failed: " ++ failedJob.error.getD "Unknown error")))) :=
  ⟨⟨by decide, by decide, by decide⟩,
    poll_failure_wrapped envFailed "9" 42 5 1 1 (by decide) (by decide) (by decide)
      failedJob rfl rfl⟩

/-- C3: the polling loop treats only statuses 3 and 4 as terminal; any
prefix of responses with arbitrary other status values keeps the loop
polling, so a terminal response at index k is acted on after exactly k
interval waits (elapsed k·I) and k+1 status checks, the outcome reflecting
that (k+1)-th response: for 1,1,1,3 the result is returned with 3 waits and
reflects the 4th response, and for 1,4 the call fails with the query
execution error after exactly 1 interval wait, not the timeout. -/
theorem poll_terminal_statuses (env : PollEnv) (jid : String) (T I k : Nat) (hI : 0 < I)
    (hk : k * I < T)
    (hrun : ∀ j, j < k → isRunning (env.responses j) = true)
    (job : JobPoll) (hjob : env.responses k = .ok job) :
    (job.status = 3 →
      pollQueryResults env jid T I =
        { outcome := some (.ok (completedJobValue env job)), checks := k + 1, waits := k }) ∧
    (job.status = 4 →
      pollQueryResults env jid T I =
        { outcome := some (.err ("Query execution failed: " ++ job.error.getD "Unknown error"))
          checks := k + 1, waits := k }) :=
  pollQueryResults_terminal env jid hI hk hrun hjob

/-- Witness for `poll_terminal_statuses`: the status sequence 1,1,1,3 with
an inline completion returns the 4th response's inline result after exactly
3 interval waits and 4 status checks. -/
theorem poll_terminal_statuses_witness :
    (0 < 1 ∧ 3 * 1 < 9 ∧ (∀ j, j < 3 → isRunning (envInline.responses j) = true)) ∧
    pollQueryResults envInline "j2" 9 1 =
      { outcome := some (.ok (completedJobValue envInline inlineCompletionJob))
        checks := 4, waits := 3 } :=
  ⟨⟨by decide, by decide, by decide⟩,
    (poll_terminal_statuses envInline "j2" 9 1 3 (by decide) (by decide) (by decide)
      inlineCompletionJob rfl).1 rfl⟩

/-- C4: if no response within the timeout window has a terminal status, the
polling loop fails with the timeout error naming the elapsed bound
(TypeScript default 60000 ms) and never yields a result. -/
theorem poll_timeout (env : PollEnv) (jid : String) (T I : Nat) (hI : 0 < I)
    (hall : ∀ j, j * I < T → isRunning (env.responses j) = true) :
    (pollQueryResults env jid T I).outcome =
      some (.err ("Query execution timed out after " ++ toString T ++ "ms")) ∧
    ∀ r, (pollQueryResults env jid T I).outcome ≠ some (.ok r) := by
  have h := pollAux_all_running env jid hI hall (ceilDiv T I) 0 (Nat.le_add_left _ _)
  rw [pollQueryResults]
  refine ⟨h, ?_⟩
  intro r
  rw [h]
  simp

/-- Witness for `poll_timeout`: a job that never leaves status 1 times out
after the configured bound. -/
theorem poll_timeout_witness :
    (0 < 1 ∧ (∀ j, j * 1 < 3 → isRunning (envForever.responses j) = true)) ∧
    (pollQueryResults envForever "j3" 3 1).outcome =
      some (.err ("Query execution timed out after " ++ toString 3 ++ "ms")) :=
  ⟨⟨by decide, fun _ _ => rfl⟩,
    (poll_timeout envForever "j3" 3 1 (by decide) (fun _ _ => rfl)).1⟩

/-- C10: for every sequence of poll responses the loop terminates — its
outcome is never the fuel-exhaustion marker — and it performs at most
ceil(timeout / interval) status checks. -/
theorem poll_loop_terminates (env : PollEnv) (jid : String) (T I : Nat) (hI : 0 < I) :
    (pollQueryResults env jid T I).outcome ≠ none ∧
    (pollQueryResults env jid T I).checks ≤ ceilDiv T I := by
  have h := pollAux_total env jid hI (ceilDiv T I) 0 (Nat.le_add_left _ _)
  rw [pollQueryResults]
  simpa using h

/-- Witness for `poll_loop_terminates`: even a never-terminal status stream
yields a definite outcome within ceil(3/1) = 3 checks. -/
theorem poll_loop_terminates_witness :
    0 < 1 ∧ ((pollQueryResults envForever "j4" 3 1).outcome ≠ none ∧
      (pollQueryResults envForever "j4" 3 1).checks ≤ ceilDiv 3 1) :=
  ⟨by decide, poll_loop_terminates envForever "j4" 3 1 (by decide)⟩

/-- C5: for update-query and update-visualization the outbound payload
contains exactly the keys explicitly set (defined) in the partial input:
each transmittable key is present iff (and with the value that) the
corresponding field is defined — so a falsy-but-defined value (`false`,
`0`, `""`) is still transmitted — and no other key is ever present. -/
theorem update_payload_exact_keys (q : UpdateQueryRequest) (d : UpdateVisualizationRequest) :
    (updateQueryRequestData q "name" = q.name.map .str ∧
     updateQueryRequestData q "data_source_id" = q.data_source_id.map .num ∧
     updateQueryRequestData q "query" = q.query.map .str ∧
     updateQueryRequestData q "description" = q.description.map .str ∧
     updateQueryRequestData q "options" = q.options ∧
     updateQueryRequestData q "schedule" = q.schedule ∧
     updateQueryRequestData q "tags" = q.tags.map (fun ts => .arr (ts.map .str)) ∧
     updateQueryRequestData q "is_archived" = q.is_archived.map .bool ∧
     updateQueryRequestData q "is_draft" = q.is_draft.map .bool) ∧
    (∀ k, k ∉ updateQueryKeys → updateQueryRequestData q k = none) ∧
    (updateVisualizationPayload d "type" = d.type.map .str ∧
     updateVisualizationPayload d "name" = d.name.map .str ∧
     updateVisualizationPayload d "description" = d.description.map .str ∧
     updateVisualizationPayload d "options" = d.options) ∧
    (∀ k, k ∉ updateVisualizationKeys → updateVisualizationPayload d k = none) := by
  refine ⟨⟨rfl, rfl, rfl, rfl, rfl, rfl, rfl, rfl, rfl⟩, ?_, ⟨rfl, rfl, rfl, rfl⟩, ?_⟩
  · intro k hk
    simp only [updateQueryKeys, List.mem_cons, List.not_mem_nil, or_false, not_or] at hk
    obtain ⟨h1, h2, h3, h4, h5, h6, h7, h8, h9⟩ := hk
    simp [updateQueryRequestData, h1, h2, h3, h4, h5, h6, h7, h8, h9]
  · intro k hk
    simp only [updateVisualizationKeys, List.mem_cons, List.not_mem_nil, or_false,
      not_or] at hk
    obtain ⟨h1, h2, h3, h4⟩ := hk
    simp [updateVisualizationPayload, h1, h2, h3, h4]

/-- Witness for `update_payload_exact_keys`: a partial update setting only
falsy-but-defined values transmits exactly those keys. -/
theorem update_payload_exact_keys_witness :
    updateQueryRequestData sampleUpdateQuery "name" = some (.str "") ∧
    updateQueryRequestData sampleUpdateQuery "data_source_id" = some (.num 0) ∧
    updateQueryRequestData sampleUpdateQuery "is_archived" = some (.bool false) ∧
    updateQueryRequestData sampleUpdateQuery "query" = none ∧
    ("job" ∉ updateQueryKeys ∧ updateQueryRequestData sampleUpdateQuery "job" = none) ∧
    updateVisualizationPayload sampleUpdateVisualization "name" = some (.str "") ∧
    updateVisualizationPayload sampleUpdateVisualization "options" = some .null ∧
    updateVisualizationPayload sampleUpdateVisualization "type" = none :=
  ⟨(update_payload_exact_keys sampleUpdateQuery sampleUpdateVisualization).1.1,
   (update_payload_exact_keys sampleUpdateQuery sampleUpdateVisualization).1.2.1,
   (update_payload_exact_keys sampleUpdateQuery sampleUpdateVisualization).1.2.2.2.2.2.2.2.1,
   (update_payload_exact_keys sampleUpdateQuery sampleUpdateVisualization).1.2.2.1,
   ⟨by decide,
    (update_payload_exact_keys sampleUpdateQuery sampleUpdateVisualization).2.1 "job"
      (by decide)⟩,
   (update_payload_exact_keys sampleUpdateQuery sampleUpdateVisualization).2.2.1.2.1,
   (update_payload_exact_keys sampleUpdateQuery sampleUpdateVisualization).2.2.1.2.2.2,
   (update_payload_exact_keys sampleUpdateQuery sampleUpdateVisualization).2.2.1.1⟩

/-- C6: every create-query payload contains the keys `description`,
`options`, `schedule` and `tags`; when the caller omitted a field it is
transmitted as `""`, `{}`, `null` and `[]` respectively (never as
`undefined`), both at the client layer and through the `create_query` tool
handler pipeline. -/
theorem create_query_defaults (q : CreateQueryRequest) :
    ((createQueryRequestData q "description").isSome = true ∧
     (createQueryRequestData q "options").isSome = true ∧
     (createQueryRequestData q "schedule").isSome = true ∧
     (createQueryRequestData q "tags").isSome = true) ∧
    (q.description = none → createQueryRequestData q "description" = some (.str "")) ∧
    (q.options = none → createQueryRequestData q "options" = some (.obj [])) ∧
    (q.schedule = none → createQueryRequestData q "schedule" = some .null) ∧
    (q.tags = none → createQueryRequestData q "tags" = some (.arr [])) ∧
    (q.description = none →
      createQueryRequestData (createQueryToolData q) "description" = some (.str "")) ∧
    (q.options = none →
      createQueryRequestData (createQueryToolData q) "options" = some (.obj [])) ∧
    (q.schedule = none →
      createQueryRequestData (createQueryToolData q) "schedule" = some .null) ∧
    (q.tags = none →
      createQueryRequestData (createQueryToolData q) "tags" = some (.arr [])) := by
  refine ⟨⟨rfl, rfl, rfl, rfl⟩, ?_, ?_, ?_, ?_, ?_, ?_, ?_, ?_⟩
  · intro h
    have e : createQueryRequestData q "description" = some (.str (strOr q.description "")) := rfl
    rw [e, h]; rfl
  · intro h
    have e : createQueryRequestData q "options" = some (jsOr q.options (.obj [])) := rfl
    rw [e, h]; rfl
  · intro h
    have e : createQueryRequestData q "schedule" = some (jsOr q.schedule .null) := rfl
    rw [e, h]; rfl
  · intro h
    have e : createQueryRequestData q "tags" = some (.arr ((q.tags.getD []).map .str)) := rfl
    rw [e, h]; rfl
  · intro h
    have e : createQueryRequestData (createQueryToolData q) "description" =
        some (.str (strOr (some (strOr q.description "")) "")) := rfl
    rw [e, h]; rfl
  · intro h
    have e : createQueryRequestData (createQueryToolData q) "options" =
        some (jsOr (some (jsOr q.options (.obj []))) (.obj [])) := rfl
    rw [e, h]; rfl
  · intro h
    have e : createQueryRequestData (createQueryToolData q) "schedule" =
        some (jsOr (some (jsOr q.schedule .null)) .null) := rfl
    rw [e, h]; rfl
  · intro h
    have e : createQueryRequestData (createQueryToolData q) "tags" =
        some (.arr (((some (q.tags.getD [])).getD []).map .str)) := rfl
    rw [e, h]; rfl

/-- Witness for `create_query_defaults`: a request with only the required
fields transmits the four defaults. -/
theorem create_query_defaults_witness :
    sampleCreateQuery.description = none ∧
    createQueryRequestData sampleCreateQuery "description" = some (.str "") ∧
    createQueryRequestData sampleCreateQuery "options" = some (.obj []) ∧
    createQueryRequestData sampleCreateQuery "schedule" = some .null ∧
    createQueryRequestData sampleCreateQuery "tags" = some (.arr []) ∧
    createQueryRequestData (createQueryToolData sampleCreateQuery) "schedule" = some .null :=
  ⟨rfl,
   (create_query_defaults sampleCreateQuery).2.1 rfl,
   (create_query_defaults sampleCreateQuery).2.2.1 rfl,
   (create_query_defaults sampleCreateQuery).2.2.2.1 rfl,
   (create_query_defaults sampleCreateQuery).2.2.2.2.1 rfl,
   (create_query_defaults sampleCreateQuery).2.2.2.2.2.2.2.1 rfl⟩

/-- C9: in create-query the defaulting of optional fields is applied by
falsiness, not absence: a field explicitly set to a falsy defined value
(`options: null`, `schedule: 0`, `description: ""`) produces exactly the
payload of the omitted field. -/
theorem create_query_falsy_defaulting (q : CreateQueryRequest) (v : JsonValue) :
    (truthy v = false →
      createQueryRequestData { q with options := some v } =
        createQueryRequestData { q with options := none }) ∧
    (truthy v = false →
      createQueryRequestData { q with schedule := some v } =
        createQueryRequestData { q with schedule := none }) ∧
    createQueryRequestData { q with description := some "" } =
      createQueryRequestData { q with description := none } := by
  refine ⟨?_, ?_, ?_⟩
  · intro hv
    funext k
    simp [createQueryRequestData, jsOr, hv]
  · intro hv
    funext k
    simp [createQueryRequestData, jsOr, hv]
  · funext k
    simp [createQueryRequestData, strOr]

/-- Witness for `create_query_falsy_defaulting`: `options: null` and
`schedule: 0` are transmitted as the defaults `{}` and `null`. -/
theorem create_query_falsy_defaulting_witness :
    (truthy .null = false ∧
      createQueryRequestData { sampleCreateQuery with options := some .null } "options" =
        createQueryRequestData { sampleCreateQuery with options := none } "options") ∧
    (truthy (.num 0) = false ∧
      createQueryRequestData { sampleCreateQuery with schedule := some (.num 0) } "schedule" =
        createQueryRequestData { sampleCreateQuery with schedule := none } "schedule") :=
  ⟨⟨rfl, congrFun ((create_query_falsy_defaulting sampleCreateQuery .null).1 rfl) "options"⟩,
   ⟨rfl, congrFun ((create_query_falsy_defaulting sampleCreateQuery (.num 0)).2.1 rfl)
      "schedule"⟩⟩

/-- C7: every tool-call whose name is not in the declared catalog is
answered by the error-flagged "Unknown tool" response from the default
branch, which performs no upstream Redash call. -/
theorem unknown_tool_dispatch (name : String) (h : name ∉ declaredToolNames) :
    dispatchToolCall name =
      .unknownTool { isError := true, text := "Unknown tool: " ++ name } ∧
    mayCallUpstream (dispatchToolCall name) = false := by
  have hd : dispatchToolCall name =
      .unknownTool { isError := true, text := "Unknown tool: " ++ name } := by
    simp only [dispatchToolCall]
    rw [if_neg (notMem_ne h (by decide : ("create_query" : String) ∈ declaredToolNames)),
      if_neg (notMem_ne h (by decide : ("update_query" : String) ∈ declaredToolNames)),
      if_neg (notMem_ne h (by decide : ("list_queries" : String) ∈ declaredToolNames)),
      if_neg (notMem_ne h (by decide : ("get_query" : String) ∈ declaredToolNames)),
      if_neg (notMem_ne h (by decide : ("archive_query" : String) ∈ declaredToolNames)),
      if_neg (notMem_ne h (by decide : ("list_data_sources" : String) ∈ declaredToolNames)),
      if_neg (notMem_ne h (by decide : ("execute_query" : String) ∈ declaredToolNames)),
      if_neg (notMem_ne h (by decide : ("list_dashboards" : String) ∈ declaredToolNames)),
      if_neg (notMem_ne h (by decide : ("get_dashboard" : String) ∈ declaredToolNames)),
      if_neg (notMem_ne h (by decide : ("get_visualization" : String) ∈ declaredToolNames)),
      if_neg (notMem_ne h (by decide : ("execute_adhoc_query" : String) ∈ declaredToolNames)),
      if_neg (notMem_ne h (by decide : ("create_visualization" : String) ∈ declaredToolNames)),
      if_neg (notMem_ne h (by decide : ("update_visualization" : String) ∈ declaredToolNames)),
      if_neg (notMem_ne h (by decide : ("delete_visualization" : String) ∈ declaredToolNames))]
  exact ⟨hd, by rw [hd]; rfl⟩

/-- Witness for `unknown_tool_dispatch`: the undeclared name "drop_table"
yields the structured unknown-tool error and no upstream call. -/
theorem unknown_tool_dispatch_witness :
    ("drop_table" : String) ∉ declaredToolNames ∧
    (dispatchToolCall "drop_table" =
        .unknownTool { isError := true, text := "Unknown tool: " ++ "drop_table" } ∧
      mayCallUpstream (dispatchToolCall "drop_table") = false) :=
  ⟨by decide, unknown_tool_dispatch "drop_table" (by decide)⟩

/-- C8: when either upstream listing call fails, the ListResources handler
still returns a resource list — the empty one — instead of propagating the
error, and on success it returns the mapped query and dashboard
resources. -/
theorem list_resources_fails_soft (qres : Except String (List RQuery))
    (dres : Except String (List RDashboard)) :
    (exceptIsOk qres = false ∨ exceptIsOk dres = false →
      listResourcesHandler qres dres = []) ∧
    (∀ qs ds, qres = .ok qs → dres = .ok ds →
      listResourcesHandler qres dres =
        qs.map queryResource ++ ds.map dashboardResource) := by
  constructor
  · intro h
    cases qres with
    | error e => rfl
    | ok qs =>
      cases dres with
      | error e => rfl
      | ok ds => rcases h with h | h <;> simp [exceptIsOk] at h
  · intro qs ds hq hd
    rw [hq, hd]
    rfl

/-- Witness for `list_resources_fails_soft`: a failing query-listing call
still produces a (here empty) resource list. -/
theorem list_resources_fails_soft_witness :
    exceptIsOk (Except.error "upstream down" : Except String (List RQuery)) = false ∧
    listResourcesHandler (Except.error "upstream down")
      (Except.ok ([] : List RDashboard)) = [] :=
  ⟨rfl, (list_resources_fails_soft (Except.error "upstream down")
    (Except.ok ([] : List RDashboard))).1 (Or.inl rfl)⟩
